import Mathlib

set_option linter.unusedVariables false

/-!
Verification of the wireless control and status-synchronization core of
mechanix-gui: the zbus wireless RPC interface
(services/server/zbus/src/interfaces/wireless_interface.rs) and the greeter
wireless service (shell/greeter/src/modules/wireless/service.rs).

Bus and control-layer effects are passed in explicitly as oracle values
(the outcome the control layer would produce on this invocation); each RPC
handler additionally reports the control-layer calls it performed, so that
call-count properties are provable.
-/

/-- Numeric value of a list of ASCII digit characters, most significant first. -/
def decimalValue (digits : List Char) : Nat :=
  digits.foldl (fun acc d => acc * 10 + (d.toNat - 48)) 0

/-- Rust str::parse::<i32>: an optional sign character followed by at least one
ASCII digit, with the signed value required to fit in 32 bits. -/
def parseI32 (s : String) : Option Int :=
  match s.data with
  | [] => none
  | c :: rest =>
    let signDigits : Int × List Char :=
      if c = '-' then (-1, rest)
      else if c = '+' then (1, rest)
      else (1, c :: rest)
    if signDigits.2 = [] then none
    else if signDigits.2.all Char.isDigit then
      let v : Int := signDigits.1 * (decimalValue signDigits.2 : Int)
      if -2147483648 ≤ v ∧ v ≤ 2147483647 then some v else none
    else none

/-- Rust str::parse::<usize> on a 64-bit target: an optional leading plus sign
followed by at least one ASCII digit, value at most 2^64 - 1. -/
def parseUsize (s : String) : Option Nat :=
  match s.data with
  | [] => none
  | c :: rest =>
    let digits := if c = '+' then rest else c :: rest
    if digits = [] then none
    else if digits.all Char.isDigit then
      let v := decimalValue digits
      if v ≤ 18446744073709551615 then some v else none
    else none

/-- Control-layer wireless info as produced by mechanix_network_ctl; its signal
field is the integer dBm reading, serialized with to_string by the RPC layer. -/
structure WirelessInfo where
  mac : String
  frequency : String
  signal : Int
  flags : String
  name : String
deriving DecidableEq

/-- Bus-level wireless info record (WirelessInfoResponse in the source); the
signal field is a string here. -/
structure WirelessInfoResponse where
  mac : String
  frequency : String
  signal : String
  flags : String
  name : String
deriving DecidableEq

/-- Bus-level scan response: the list of visible networks. -/
structure WirelessScanListResponse where
  wireless_network : List WirelessInfoResponse
deriving DecidableEq

/-- Control-layer known-network record; network_id is a numeric profile id. -/
structure KnownNetwork where
  network_id : Nat
  ssid : String
  flags : String
deriving DecidableEq

/-- Bus-level known-network record (network_id serialized as a string). -/
structure KnownNetworkResponse where
  network_id : String
  ssid : String
  flags : String
deriving DecidableEq

/-- Bus-level known-network list response. -/
structure KnownNetworkListResponse where
  known_network : List KnownNetworkResponse
deriving DecidableEq

/-- The diff-triggered snapshot emitted by the polling loop. -/
structure WirelessNotificationEvent where
  signal_strength : String
  is_connected : Bool
  is_enabled : Bool
deriving DecidableEq

/-- Opaque control-layer failure (the handlers discard its contents). -/
inductive CtlError where
  | failed
deriving DecidableEq

/-- zbus fdo error as used by the handlers: Failed with a message. -/
inductive ZbusError where
  | failed (msg : String)
deriving DecidableEq

/-- Message carried by a zbus error (Rust e.to_string()). -/
def ZbusError.message : ZbusError → String
  | ZbusError.failed m => m

/-- Whether an Except value is a success. -/
def isOkE {ε α : Type} : Except ε α → Bool
  | Except.ok _ => true
  | Except.error _ => false

instance {ε α : Type} [DecidableEq ε] [DecidableEq α] : DecidableEq (Except ε α) := fun a b =>
  match a, b with
  | Except.ok x, Except.ok y =>
    if h : x = y then Decidable.isTrue (congrArg Except.ok h)
    else Decidable.isFalse (fun hh => h (Except.ok.inj hh))
  | Except.ok _, Except.error _ => Decidable.isFalse (fun hh => Except.noConfusion hh)
  | Except.error _, Except.ok _ => Decidable.isFalse (fun hh => Except.noConfusion hh)
  | Except.error x, Except.error y =>
    if h : x = y then Decidable.isTrue (congrArg Except.error h)
    else Decidable.isFalse (fun hh => h (Except.error.inj hh))

namespace WirelessBusInterface

/-- RPC handler status: wraps the control client's boolean in Ok and performs
exactly one control-layer call. The control client's status returns a plain
bool (its callers in src use the result directly as a bool), so the handler
has no error branch at all. -/
def status (ctl_status : Bool) : Except ZbusError Bool × Nat :=
  (Except.ok ctl_status, 1)

/-- RPC handler connect: one control-layer call; failure becomes a Failed
fault. -/
def connect (ctl_connect : Except CtlError Unit) : Except ZbusError Unit × Nat :=
  (match ctl_connect with
   | Except.ok r => Except.ok r
   | Except.error _ => Except.error (ZbusError.failed ("Failed to connect Wifi")), 1)

/-- RPC handler disconnect: parses network_id as usize first; on parse failure
it fails without touching the control layer, otherwise it performs exactly one
remove_wireless_network call, whose argument list is returned. -/
def disconnect (network_id : String)
    (remove_wireless_network : Nat → Except CtlError Unit) :
    Except ZbusError Unit × List Nat :=
  match parseUsize network_id with
  | none => (Except.error (ZbusError.failed ("Failed to parse network_id")), [])
  | some id =>
    match remove_wireless_network id with
    | Except.ok r => (Except.ok r, [id])
    | Except.error _ => (Except.error (ZbusError.failed ("Failed to disconnect Wifi")), [id])

/-- RPC handler select_network: same parse-first shape as disconnect. -/
def select_network (network_id : String)
    (select_wireless_network : Nat → Except CtlError Unit) :
    Except ZbusError Unit × List Nat :=
  match parseUsize network_id with
  | none => (Except.error (ZbusError.failed ("Failed to parse network_id")), [])
  | some id =>
    match select_wireless_network id with
    | Except.ok r => (Except.ok r, [id])
    | Except.error _ => (Except.error (ZbusError.failed ("Failed to select network")), [id])

/-- Field-for-field conversion of a control-layer info record to the bus-level
response, the signal serialized with to_string. -/
def wifiInfoResponse (result : WirelessInfo) : WirelessInfoResponse :=
  { mac := result.mac
    frequency := result.frequency
    signal := toString result.signal
    flags := result.flags
    name := result.name }

/-- RPC handler info: one control-layer call, converted field by field. -/
def info (ctl_info : Except CtlError WirelessInfo) :
    Except ZbusError WirelessInfoResponse × Nat :=
  (match ctl_info with
   | Except.ok result => Except.ok (wifiInfoResponse result)
   | Except.error _ => Except.error (ZbusError.failed ("Failed to get Wifi info")), 1)

/-- RPC handler scan: one control-layer call; the result list is converted
entry by entry in order (the source loops over the list pushing converted
entries). -/
def scan (ctl_scan : Except CtlError (List WirelessInfo)) :
    Except ZbusError WirelessScanListResponse × Nat :=
  (match ctl_scan with
   | Except.ok result => Except.ok { wireless_network := result.map wifiInfoResponse }
   | Except.error _ => Except.error (ZbusError.failed ("Failed to scan Wifi")), 1)

/-- Conversion of a control-layer known network to the bus-level record. -/
def knownNetworkResponse (k : KnownNetwork) : KnownNetworkResponse :=
  { network_id := toString k.network_id
    ssid := k.ssid
    flags := k.flags }

/-- RPC handler known_networks: one control-layer call, converted in order. -/
def known_networks (ctl_known : Except CtlError (List KnownNetwork)) :
    Except ZbusError KnownNetworkListResponse × Nat :=
  (match ctl_known with
   | Except.ok result => Except.ok { known_network := result.map knownNetworkResponse }
   | Except.error _ => Except.error (ZbusError.failed ("Failed to get known networks")), 1)

/-- RPC handler enable: one control-layer call; success reports true. -/
def enable (ctl_enable : Except CtlError Unit) : Except ZbusError Bool × Nat :=
  (match ctl_enable with
   | Except.ok _ => Except.ok true
   | Except.error _ => Except.error (ZbusError.failed ("Failed to enable Wifi")), 1)

/-- RPC handler disable: one control-layer call; the source reuses the enable
failure message verbatim. -/
def disable (ctl_disable : Except CtlError Unit) : Except ZbusError Bool × Nat :=
  (match ctl_disable with
   | Except.ok _ => Except.ok true
   | Except.error _ => Except.error (ZbusError.failed ("Failed to enable Wifi")), 1)

end WirelessBusInterface

/-- One poll cycle's oracle: the control client's status boolean, the info
result that the control client would return were info queried this cycle, and
the outcome of the signal-context creation plus notification emission were an
emission attempted this cycle. -/
structure PollCycle where
  ctl_status : Bool
  ctl_info : Except CtlError WirelessInfo
  emit_result : Except ZbusError Unit
deriving DecidableEq

/-- The three previously-emitted values held by the notification loop. -/
structure PrevState where
  previous_is_enabled : Option Bool
  previous_is_connected : Option Bool
  previous_signal_strength : Option String
deriving DecidableEq

/-- Loop state before the first cycle: all three previous values are None. -/
def initPrev : PrevState :=
  { previous_is_enabled := none
    previous_is_connected := none
    previous_signal_strength := none }

/-- State after emitting event t: all three previous values set from t. -/
def mkPrev (t : WirelessNotificationEvent) : PrevState :=
  { previous_is_enabled := some t.is_enabled
    previous_is_connected := some t.is_connected
    previous_signal_strength := some t.signal_strength }

/-- The (is_enabled, is_connected, signal_strength) triple a cycle computes:
if enabled, query info; an info error gives (false, ""), success gives
(true, signal.to_string()); if disabled, (false, "") without querying info. -/
def computeTriple (c : PollCycle) : WirelessNotificationEvent :=
  if c.ctl_status then
    match c.ctl_info with
    | Except.error _ =>
      { signal_strength := "", is_connected := false, is_enabled := c.ctl_status }
    | Except.ok wifi_info =>
      { signal_strength := toString wifi_info.signal, is_connected := true
        is_enabled := c.ctl_status }
  else { signal_strength := "", is_connected := false, is_enabled := c.ctl_status }

/-- One iteration of the notification loop body: compare the computed triple
against the three stored previous values; when any differs, attempt the
emission (a failure there propagates out before the previous values are
updated), otherwise keep the state and emit nothing. -/
def sendNotificationStep (st : PrevState) (c : PollCycle) :
    Except ZbusError (PrevState × Option WirelessNotificationEvent) :=
  if st.previous_is_enabled ≠ some (computeTriple c).is_enabled
      ∨ st.previous_is_connected ≠ some (computeTriple c).is_connected
      ∨ st.previous_signal_strength ≠ some (computeTriple c).signal_strength then
    match c.emit_result with
    | Except.error e => Except.error e
    | Except.ok _ => Except.ok (mkPrev (computeTriple c), some (computeTriple c))
  else Except.ok (st, none)

/-- Observable outcome of running the loop over a finite prefix of cycles:
the events emitted, the final stored state, and whether the loop exited by
propagating an emission error. -/
structure StreamRun where
  events : List WirelessNotificationEvent
  state : PrevState
  errored : Bool
deriving DecidableEq

/-- The notification loop run over a list of poll cycles, from state st; an
erroring step ends the run with the state as it was before that step. -/
def sendNotificationStream (st : PrevState) : List PollCycle → StreamRun
  | [] => { events := [], state := st, errored := false }
  | c :: rest =>
    match sendNotificationStep st c with
    | Except.error _ => { events := [], state := st, errored := true }
    | Except.ok (st2, ev) =>
      let r := sendNotificationStream st2 rest
      { events := ev.toList ++ r.events, state := r.state, errored := r.errored }

/-- Specification-side reference for the emission pattern: emit each triple
exactly when it differs from the previously emitted one (the first cycle
always differs from the absent previous triple). -/
def dedupEmits : Option WirelessNotificationEvent → List WirelessNotificationEvent →
    List WirelessNotificationEvent
  | _, [] => []
  | prev, t :: rest =>
    if some t = prev then dedupEmits prev rest else t :: dedupEmits (some t) rest

/-- Loop state corresponding to an optional previously emitted triple. -/
def stOf : Option WirelessNotificationEvent → PrevState
  | none => initPrev
  | some t => mkPrev t

/-- Greeter-side signal-strength bucket. -/
inductive WirelessConnectedState where
  | Low
  | Weak
  | Good
  | Strong
deriving DecidableEq

/-- Greeter-side wireless status (the constructors get_wireless_status uses). -/
inductive WirelessStatus where
  | Off
  | Connected (s : WirelessConnectedState)
deriving DecidableEq

/-- Greeter error code used by get_wireless_status. -/
inductive GreeterErrorCodes where
  | GetWirelessStatusError
deriving DecidableEq

/-- Greeter error: a code plus the stringified underlying error. -/
structure GreeterError where
  code : GreeterErrorCodes
  message : String
deriving DecidableEq

/-- Outcome of running a fallible Rust function that may also panic. -/
inductive GreeterRun (α : Type) where
  | panicked
  | err (e : GreeterError)
  | ok (v : α)
deriving DecidableEq

/-- get_wireless_status of the greeter wireless service, with the two bus-call
outcomes passed as oracles; the second component records whether the info
call was made. The signal string is parsed with unwrap, so a malformed signal
panics. -/
def get_wireless_status (wireless_status_res : Except ZbusError Bool)
    (info_res : Except ZbusError WirelessInfoResponse) :
    GreeterRun WirelessStatus × Bool :=
  match wireless_status_res with
  | Except.error e =>
    (GreeterRun.err { code := GreeterErrorCodes.GetWirelessStatusError, message := e.message },
      false)
  | Except.ok wireless_on =>
    if wireless_on = false then (GreeterRun.ok WirelessStatus.Off, false)
    else
      match info_res with
      | Except.error e =>
        (GreeterRun.err { code := GreeterErrorCodes.GetWirelessStatusError, message := e.message },
          true)
      | Except.ok wireless_info =>
        match parseI32 wireless_info.signal with
        | none => (GreeterRun.panicked, true)
        | some signal =>
          (GreeterRun.ok
            (if signal ≤ -80 then WirelessStatus.Connected WirelessConnectedState.Low
             else if signal ≤ -60 then WirelessStatus.Connected WirelessConnectedState.Weak
             else if signal ≤ -40 then WirelessStatus.Connected WirelessConnectedState.Good
             else WirelessStatus.Connected WirelessConnectedState.Strong), true)

/-- Radio state of the underlying network service. -/
structure Radio where
  enabled : Bool
deriving DecidableEq

/-- Modelled from the spec: WirelessNetworkControl::enable of the control
crate (mechanix_network_ctl, part of this repository but not under src); the
spec requires enable to be idempotent: when the bus transport is reachable it
succeeds and leaves the radio enabled, also when the radio was already
enabled. -/
def ctl_enable (transport_ok : Bool) (r : Radio) : Except CtlError Radio :=
  if transport_ok then Except.ok { enabled := true } else Except.error CtlError.failed

/-- Modelled from the spec: WirelessNetworkControl::status of the control
crate reports whether the radio is enabled; its Rust return type is a plain
bool (the callers in src use the result directly as a boolean). -/
def ctl_status (r : Radio) : Bool := r.enabled

/-- The enable RPC handler run against a radio state: performs the (spec
modelled) control-layer enable and reports true on success, returning the
radio state the control layer left behind. -/
def enableOn (transport_ok : Bool) (r : Radio) : Except ZbusError Bool × Radio :=
  match ctl_enable transport_ok r with
  | Except.ok r2 => (Except.ok true, r2)
  | Except.error _ => (Except.error (ZbusError.failed ("Failed to enable Wifi")), r)

/-- Two notification events with equal fields are equal. -/
theorem eventEqOfFields (a b : WirelessNotificationEvent)
    (h1 : a.signal_strength = b.signal_strength)
    (h2 : a.is_connected = b.is_connected)
    (h3 : a.is_enabled = b.is_enabled) : a = b := by
  cases a; cases b; simp_all

/-- From the initial all-None state, any cycle with a successful emission
emits its computed triple and stores it. -/
theorem sendNotificationStep_init (c : PollCycle) (h : c.emit_result = Except.ok ()) :
    sendNotificationStep initPrev c =
      Except.ok (mkPrev (computeTriple c), some (computeTriple c)) := by
  simp [sendNotificationStep, initPrev, h]

/-- A cycle whose computed triple equals the stored one emits nothing and
keeps the state. -/
theorem sendNotificationStep_same (t : WirelessNotificationEvent) (c : PollCycle)
    (heq : computeTriple c = t) :
    sendNotificationStep (mkPrev t) c = Except.ok (mkPrev t, none) := by
  subst heq
  simp [sendNotificationStep, mkPrev]

/-- A cycle whose computed triple differs from the stored one emits it and
updates the state, given a successful emission. -/
theorem sendNotificationStep_diff (t : WirelessNotificationEvent) (c : PollCycle)
    (h : c.emit_result = Except.ok ()) (hne : computeTriple c ≠ t) :
    sendNotificationStep (mkPrev t) c =
      Except.ok (mkPrev (computeTriple c), some (computeTriple c)) := by
  have hcond : (mkPrev t).previous_is_enabled ≠ some (computeTriple c).is_enabled
      ∨ (mkPrev t).previous_is_connected ≠ some (computeTriple c).is_connected
      ∨ (mkPrev t).previous_signal_strength ≠ some (computeTriple c).signal_strength := by
    by_contra hc
    push_neg at hc
    obtain ⟨h1, h2, h3⟩ := hc
    simp only [mkPrev, Option.some.injEq] at h1 h2 h3
    exact hne (eventEqOfFields _ _ h3.symm h2.symm h1.symm)
  simp only [sendNotificationStep]
  rw [if_pos hcond, h]

/-- Unfolding of the run on a cons whose step succeeds. -/
theorem sendNotificationStream_cons_ok (st st2 : PrevState) (c : PollCycle)
    (ev : Option WirelessNotificationEvent) (rest : List PollCycle)
    (hstep : sendNotificationStep st c = Except.ok (st2, ev)) :
    sendNotificationStream st (c :: rest) =
      { events := ev.toList ++ (sendNotificationStream st2 rest).events
        state := (sendNotificationStream st2 rest).state
        errored := (sendNotificationStream st2 rest).errored } := by
  simp [sendNotificationStream, hstep]

/-- Unfolding of the run on a cons whose step errors. -/
theorem sendNotificationStream_cons_err (st : PrevState) (c : PollCycle) (e : ZbusError)
    (rest : List PollCycle) (hstep : sendNotificationStep st c = Except.error e) :
    sendNotificationStream st (c :: rest) =
      { events := [], state := st, errored := true } := by
  simp [sendNotificationStream, hstep]

/-- The loop's emissions over cycles with successful emission are exactly the
differ-from-previous dedup of the computed triples, and the run never errors. -/
theorem stream_events_eq_dedup (cycles : List PollCycle) :
    ∀ prevOpt : Option WirelessNotificationEvent,
      (∀ c ∈ cycles, c.emit_result = Except.ok ()) →
      (sendNotificationStream (stOf prevOpt) cycles).events
          = dedupEmits prevOpt (cycles.map computeTriple)
        ∧ (sendNotificationStream (stOf prevOpt) cycles).errored = false := by
  induction cycles with
  | nil =>
    intro prevOpt h
    constructor <;> simp [sendNotificationStream, dedupEmits]
  | cons c rest ih =>
    intro prevOpt h
    have hc : c.emit_result = Except.ok () := h c (List.mem_cons_self _ _)
    have hrest : ∀ x ∈ rest, x.emit_result = Except.ok () :=
      fun x hx => h x (List.mem_cons_of_mem _ hx)
    cases prevOpt with
    | none =>
      have ih2 := ih (some (computeTriple c)) hrest
      simp only [stOf] at ih2 ⊢
      rw [sendNotificationStream_cons_ok initPrev (mkPrev (computeTriple c)) c
          (some (computeTriple c)) rest (sendNotificationStep_init c hc)]
      constructor
      · simp [dedupEmits, ih2.1]
      · simp [ih2.2]
    | some p =>
      simp only [stOf] at ih ⊢
      by_cases hpc : computeTriple c = p
      · have ih2 := ih (some p) hrest
        simp only [stOf] at ih2
        rw [sendNotificationStream_cons_ok (mkPrev p) (mkPrev p) c none rest
            (sendNotificationStep_same p c hpc)]
        constructor
        · simp [dedupEmits, hpc, ih2.1]
        · simp [ih2.2]
      · have ih2 := ih (some (computeTriple c)) hrest
        simp only [stOf] at ih2
        rw [sendNotificationStream_cons_ok (mkPrev p) (mkPrev (computeTriple c)) c
            (some (computeTriple c)) rest (sendNotificationStep_diff p c hc hpc)]
        constructor
        · simp [dedupEmits, hpc, ih2.1]
        · simp [ih2.2]

/-- The dedup output after a last-emitted element t is a chain of pairwise
distinct consecutive elements starting from t. -/
theorem dedupEmits_chain (l : List WirelessNotificationEvent) :
    ∀ t : WirelessNotificationEvent,
      List.Chain (fun a b => a ≠ b) t (dedupEmits (some t) l) := by
  induction l with
  | nil => intro t; exact List.Chain.nil
  | cons h rest ih =>
    intro t
    simp only [dedupEmits]
    by_cases hht : some h = some t
    · rw [if_pos hht]
      have heq : h = t := Option.some.inj hht
      subst heq
      exact ih h
    · rw [if_neg hht]
      exact List.Chain.cons (fun he => hht (congrArg some he.symm)) (ih h)

/-- A chain from a head element yields a chain within the tail list. -/
theorem chainTail {α : Type} {R : α → α → Prop} {a : α} {l : List α}
    (h : List.Chain R a l) : List.Chain' R l := by
  cases h with
  | nil => trivial
  | cons hr hc => exact hc

/-- Consecutive elements of the dedup output are pairwise distinct. -/
theorem dedupEmits_chain_all (prevOpt : Option WirelessNotificationEvent)
    (l : List WirelessNotificationEvent) :
    List.Chain' (fun a b => a ≠ b) (dedupEmits prevOpt l) := by
  cases prevOpt with
  | some t => exact chainTail (dedupEmits_chain l t)
  | none =>
    cases l with
    | nil => trivial
    | cons t rest =>
      simp only [dedupEmits]
      rw [if_neg (by simp)]
      exact dedupEmits_chain rest t

/-- The dedup output is never longer than its input. -/
theorem dedupEmits_length (l : List WirelessNotificationEvent) :
    ∀ prevOpt, (dedupEmits prevOpt l).length ≤ l.length := by
  induction l with
  | nil => intro prevOpt; simp [dedupEmits]
  | cons t rest ih =>
    intro prevOpt
    simp only [dedupEmits]
    by_cases htp : some t = prevOpt
    · rw [if_pos htp]
      exact Nat.le_succ_of_le (ih prevOpt)
    · rw [if_neg htp]
      simpa using Nat.succ_le_succ (ih (some t))

/-- An event produced by a step is the cycle's computed triple. -/
theorem stepEventIsTriple {st st2 : PrevState} {c : PollCycle}
    {t : WirelessNotificationEvent}
    (hstep : sendNotificationStep st c = Except.ok (st2, some t)) :
    t = computeTriple c := by
  unfold sendNotificationStep at hstep
  split at hstep
  · split at hstep
    · exact Except.noConfusion hstep
    · simp only [Except.ok.injEq, Prod.mk.injEq] at hstep
      exact (Option.some.inj hstep.2).symm
  · simp only [Except.ok.injEq, Prod.mk.injEq] at hstep
    exact absurd hstep.2 (by simp)

/-- Every event emitted by a run is the computed triple of one of its cycles. -/
theorem mem_stream_events {cycles : List PollCycle} :
    ∀ {st : PrevState} {e : WirelessNotificationEvent},
      e ∈ (sendNotificationStream st cycles).events →
        ∃ c ∈ cycles, e = computeTriple c := by
  induction cycles with
  | nil => intro st e he; simp [sendNotificationStream] at he
  | cons c rest ih =>
    intro st e he
    cases hstep : sendNotificationStep st c with
    | error err =>
      rw [sendNotificationStream_cons_err st c err rest hstep] at he
      simp at he
    | ok pr =>
      obtain ⟨st2, ev⟩ := pr
      cases ev with
      | none =>
        rw [sendNotificationStream_cons_ok st st2 c none rest hstep] at he
        simp only [Option.toList, List.nil_append] at he
        obtain ⟨c2, hc2, he2⟩ := ih he
        exact ⟨c2, List.mem_cons_of_mem _ hc2, he2⟩
      | some t =>
        rw [sendNotificationStream_cons_ok st st2 c (some t) rest hstep] at he
        simp only [Option.toList, List.cons_append, List.nil_append, List.mem_cons] at he
        rcases he with he1 | he2
        · rw [he1]
          exact ⟨c, List.mem_cons_self _ _, stepEventIsTriple hstep⟩
        · obtain ⟨c2, hc2, he2⟩ := ih he2
          exact ⟨c2, List.mem_cons_of_mem _ hc2, he2⟩

/-- A computed triple reports connected only when enabled, and an empty
signal when disabled. -/
theorem computeTriple_conn_imp_enabled (c : PollCycle) :
    ((computeTriple c).is_connected = true → (computeTriple c).is_enabled = true)
    ∧ ((computeTriple c).is_enabled = false → (computeTriple c).signal_strength = "") := by
  unfold computeTriple
  cases hcs : c.ctl_status <;> cases hci : c.ctl_info <;> simp

/-- Poll state A of the dedup example: enabled, connected at -50 dBm. -/
def cycleA : PollCycle :=
  { ctl_status := true
    ctl_info := Except.ok { mac := "m", frequency := "f", signal := -50, flags := "fl", name := "net" }
    emit_result := Except.ok () }

/-- Poll state B of the dedup example: enabled but the info query fails. -/
def cycleB : PollCycle :=
  { ctl_status := true
    ctl_info := Except.error CtlError.failed
    emit_result := Except.ok () }

/-- The example poll state sequence [A, A, A, B, B, A]. -/
def exampleCycles : List PollCycle := [cycleA, cycleA, cycleA, cycleB, cycleB, cycleA]

/-- A cycle on which the signal-context creation or emission fails. -/
def cycleFail : PollCycle :=
  { ctl_status := true
    ctl_info := Except.ok { mac := "m", frequency := "f", signal := -50, flags := "fl", name := "net" }
    emit_result := Except.error (ZbusError.failed ("no bus")) }

/-- A scan entry used to exhibit duplicate preservation. -/
def dupNet : WirelessInfo :=
  { mac := "aa", frequency := "2412", signal := -40, flags := "WPA", name := "ssid1" }

/-- C1: over any sequence of poll cycles on which emission succeeds, the
notification loop emits exactly the differ-from-previous dedup of the computed
(is_enabled, is_connected, signal_strength) triples — an event fires on a
cycle if and only if its triple differs from the previously emitted one, the
first cycle always firing — hence consecutive emitted events are pairwise
distinct, at most one event arises per poll cycle, and the concrete poll
state sequence [A, A, A, B, B, A] yields exactly 3 notifications. -/
theorem c1_notification_dedup (cycles : List PollCycle)
    (h : ∀ c ∈ cycles, c.emit_result = Except.ok ()) :
    (sendNotificationStream initPrev cycles).events
        = dedupEmits none (cycles.map computeTriple)
      ∧ List.Chain' (fun a b => a ≠ b) ((sendNotificationStream initPrev cycles).events)
      ∧ ((sendNotificationStream initPrev cycles).events).length ≤ cycles.length
      ∧ (sendNotificationStream initPrev exampleCycles).events.length = 3 := by
  have hmain := stream_events_eq_dedup cycles none h
  simp only [stOf] at hmain
  refine ⟨hmain.1, ?_, ?_, by decide⟩
  · rw [hmain.1]
    exact dedupEmits_chain_all none _
  · rw [hmain.1]
    calc (dedupEmits none (cycles.map computeTriple)).length
        ≤ (cycles.map computeTriple).length := dedupEmits_length _ none
      _ = cycles.length := List.length_map _ _

/-- Witness for C1 at the concrete sequence [A, A, A, B, B, A]. -/
theorem c1_notification_dedup_witness :
    (sendNotificationStream initPrev exampleCycles).events.length = 3 :=
  (c1_notification_dedup exampleCycles (by decide)).2.2.2

/-- C2: in a cycle where status reports enabled and the info query fails, the
computed triple is (is_enabled = true, is_connected = false, signal = ""), the
loop body succeeds rather than propagating the info error, and the run errors
exactly when the remaining cycles error — the query failure never terminates
the polling loop. -/
theorem c2_info_failure_absorbed (st : PrevState) (c : PollCycle) (rest : List PollCycle)
    (hen : c.ctl_status = true) (hinf : c.ctl_info = Except.error CtlError.failed)
    (hemit : c.emit_result = Except.ok ()) :
    computeTriple c = { signal_strength := "", is_connected := false, is_enabled := true }
    ∧ ∃ st2 ev, sendNotificationStep st c = Except.ok (st2, ev)
        ∧ (sendNotificationStream st (c :: rest)).errored
            = (sendNotificationStream st2 rest).errored := by
  have htriple : computeTriple c
      = { signal_strength := "", is_connected := false, is_enabled := true } := by
    simp [computeTriple, hen, hinf]
  refine ⟨htriple, ?_⟩
  by_cases hcond : st.previous_is_enabled ≠ some (computeTriple c).is_enabled
      ∨ st.previous_is_connected ≠ some (computeTriple c).is_connected
      ∨ st.previous_signal_strength ≠ some (computeTriple c).signal_strength
  · have hstep : sendNotificationStep st c
        = Except.ok (mkPrev (computeTriple c), some (computeTriple c)) := by
      simp only [sendNotificationStep]
      rw [if_pos hcond, hemit]
    refine ⟨mkPrev (computeTriple c), some (computeTriple c), hstep, ?_⟩
    rw [sendNotificationStream_cons_ok st (mkPrev (computeTriple c)) c
        (some (computeTriple c)) rest hstep]
  · have hstep : sendNotificationStep st c = Except.ok (st, none) := by
      simp only [sendNotificationStep]
      rw [if_neg hcond]
    refine ⟨st, none, hstep, ?_⟩
    rw [sendNotificationStream_cons_ok st st c none rest hstep]

/-- Witness for C2 at the initial state and the enabled-but-info-error cycle. -/
theorem c2_info_failure_absorbed_witness :
    computeTriple cycleB = { signal_strength := "", is_connected := false, is_enabled := true }
    ∧ ∃ st2 ev, sendNotificationStep initPrev cycleB = Except.ok (st2, ev)
        ∧ (sendNotificationStream initPrev (cycleB :: [])).errored
            = (sendNotificationStream st2 []).errored :=
  c2_info_failure_absorbed initPrev cycleB [] (by decide) (by decide) (by decide)

/-- C3: disconnect and select_network fail fast with the invalid-id error and
an empty control-layer call list whenever the network_id string does not parse
as a non-negative integer, and perform exactly one control-layer call (with
the parsed id) whenever it does. -/
theorem c3_fail_fast_invalid_id (s : String) (f g : Nat → Except CtlError Unit) :
    (parseUsize s = none →
        WirelessBusInterface.disconnect s f
            = (Except.error (ZbusError.failed ("Failed to parse network_id")), [])
          ∧ WirelessBusInterface.select_network s g
            = (Except.error (ZbusError.failed ("Failed to parse network_id")), []))
    ∧ (∀ n, parseUsize s = some n →
        (WirelessBusInterface.disconnect s f).2 = [n]
          ∧ (WirelessBusInterface.select_network s g).2 = [n]) := by
  constructor
  · intro hp
    constructor <;>
      simp [WirelessBusInterface.disconnect, WirelessBusInterface.select_network, hp]
  · intro n hp
    constructor
    · cases hf : f n <;> simp [WirelessBusInterface.disconnect, hp, hf]
    · cases hg : g n <;> simp [WirelessBusInterface.select_network, hp, hg]

/-- Witness for C3: the literal invalid id "not-a-number" fails with no call,
and the parsing id "7" produces exactly one call. -/
theorem c3_fail_fast_invalid_id_witness :
    WirelessBusInterface.disconnect "not-a-number" (fun _ => Except.ok ())
        = (Except.error (ZbusError.failed ("Failed to parse network_id")), [])
    ∧ (WirelessBusInterface.select_network "7" (fun _ => Except.ok ())).2 = [7] :=
  ⟨((c3_fail_fast_invalid_id "not-a-number" (fun _ => Except.ok ())
      (fun _ => Except.ok ())).1 (by decide)).1,
   ((c3_fail_fast_invalid_id "7" (fun _ => Except.ok ())
      (fun _ => Except.ok ())).2 7 (by decide)).2⟩

/-- C4 counterexample: the status handler returns Ok on every value the
control client's status can produce — that call returns a plain bool, so both
booleans enumerate its entire range — hence there is no input on which the
handler fails, contradicting the claimed TransportError outcome for a failed
bus call. -/
theorem c4_status_counterexample :
    WirelessBusInterface.status true = (Except.ok true, 1)
    ∧ WirelessBusInterface.status false = (Except.ok false, 1) := by
  constructor <;> rfl

/-- C4 amended: status() returns Ok of the control client's boolean — in
particular Ok false, not an error, when the radio is off — and never returns
an error at all: the handler has no failure branch, since the control
client's status call yields a plain bool and any transport failure is
absorbed below the handler. -/
theorem c4_status_amended (b : Bool) :
    (WirelessBusInterface.status b).1 = Except.ok b
    ∧ isOkE (WirelessBusInterface.status b).1 = true := by
  constructor <;> rfl

/-- C5: a disabled cycle short-circuits the info query — its computed triple
is the constant (false, false, "") regardless of what info would have
returned — every event the loop emits satisfies is_connected only if
is_enabled (with an empty signal when disabled), and the greeter
get_wireless_status returns Off without calling info when the status query
reports false. -/
theorem c5_disabled_short_circuit :
    (∀ (inf : Except CtlError WirelessInfo) (em : Except ZbusError Unit),
        computeTriple { ctl_status := false, ctl_info := inf, emit_result := em }
          = { signal_strength := "", is_connected := false, is_enabled := false })
    ∧ (∀ (cycles : List PollCycle) (e : WirelessNotificationEvent),
        e ∈ (sendNotificationStream initPrev cycles).events →
          (e.is_connected = true → e.is_enabled = true)
          ∧ (e.is_enabled = false → e.signal_strength = ""))
    ∧ (∀ info_res : Except ZbusError WirelessInfoResponse,
        get_wireless_status (Except.ok false) info_res
          = (GreeterRun.ok WirelessStatus.Off, false)) := by
  refine ⟨?_, ?_, ?_⟩
  · intro inf em
    simp [computeTriple]
  · intro cycles e he
    obtain ⟨c, _, heq⟩ := mem_stream_events he
    subst heq
    exact computeTriple_conn_imp_enabled c
  · intro info_res
    simp [get_wireless_status]

/-- Witness for C5: the disabled cycle's constant triple, the connected event
emitted on a one-cycle run is an enabled event, and the greeter returns Off
without the info call on a concrete disabled status. -/
theorem c5_disabled_short_circuit_witness :
    computeTriple
        { ctl_status := false, ctl_info := Except.error CtlError.failed
          emit_result := Except.ok () }
      = { signal_strength := "", is_connected := false, is_enabled := false }
    ∧ ({ signal_strength := "-50", is_connected := true, is_enabled := true } :
        WirelessNotificationEvent).is_enabled = true
    ∧ get_wireless_status (Except.ok false) (Except.error (ZbusError.failed ("x")))
        = (GreeterRun.ok WirelessStatus.Off, false) := by
  refine ⟨c5_disabled_short_circuit.1 (Except.error CtlError.failed) (Except.ok ()), ?_,
    c5_disabled_short_circuit.2.2 (Except.error (ZbusError.failed ("x")))⟩
  exact (c5_disabled_short_circuit.2.1 [cycleA]
    { signal_strength := "-50", is_connected := true, is_enabled := true } (by decide)).1 (by decide)

/-- C6: enabling when the radio is already enabled succeeds and reports true
(no error), and afterwards the status handler reports true — enable is
idempotent. The control-layer enable and status are modelled from the spec,
the control crate not being under src. -/
theorem c6_enable_idempotent (r : Radio) (h : r.enabled = true) :
    (enableOn true r).1 = Except.ok true
    ∧ ((enableOn true r).2).enabled = true
    ∧ (WirelessBusInterface.status (ctl_status (enableOn true r).2)).1 = Except.ok true := by
  exact ⟨rfl, rfl, rfl⟩

/-- Witness for C6 at an already-enabled radio. -/
theorem c6_enable_idempotent_witness :
    (enableOn true { enabled := true }).1 = Except.ok true
    ∧ ((enableOn true { enabled := true }).2).enabled = true
    ∧ (WirelessBusInterface.status (ctl_status (enableOn true { enabled := true }).2)).1
        = Except.ok true :=
  c6_enable_idempotent { enabled := true } rfl

/-- C7: scan maps the control client's successful result elementwise into the
response list: same length, same order (the i-th response entry is the
converted i-th input entry for every index), and duplicate entries are
preserved, shown also on a concrete list with a duplicated network. -/
theorem c7_scan_elementwise (l : List WirelessInfo) :
    (WirelessBusInterface.scan (Except.ok l)).1
        = Except.ok { wireless_network := l.map WirelessBusInterface.wifiInfoResponse }
    ∧ (l.map WirelessBusInterface.wifiInfoResponse).length = l.length
    ∧ (∀ i : Nat, (l.map WirelessBusInterface.wifiInfoResponse)[i]?
        = (l[i]?).map WirelessBusInterface.wifiInfoResponse)
    ∧ (WirelessBusInterface.scan (Except.ok [dupNet, dupNet])).1
        = Except.ok { wireless_network :=
            [WirelessBusInterface.wifiInfoResponse dupNet,
             WirelessBusInterface.wifiInfoResponse dupNet] } := by
  refine ⟨rfl, List.length_map _ _, ?_, rfl⟩
  intro i
  simp

/-- C8: every per-call RPC handler performs at most one control-layer call
per invocation (it never retries) and returns a remote fault exactly when the
underlying operation — or, for disconnect and select_network, the preceding
id parse — fails; each handler is a total function of its oracle input, with
no panicking path. -/
theorem c8_handlers_one_shot (b : Bool) (rc re rd : Except CtlError Unit)
    (rinf : Except CtlError WirelessInfo) (rs : Except CtlError (List WirelessInfo))
    (rk : Except CtlError (List KnownNetwork)) (s : String)
    (f g : Nat → Except CtlError Unit) :
    ((WirelessBusInterface.status b).2 ≤ 1
      ∧ (WirelessBusInterface.status b).1 = Except.ok b)
    ∧ ((WirelessBusInterface.connect rc).2 ≤ 1
      ∧ isOkE (WirelessBusInterface.connect rc).1 = isOkE rc)
    ∧ ((WirelessBusInterface.disconnect s f).2.length ≤ 1
      ∧ (parseUsize s = none →
          isOkE (WirelessBusInterface.disconnect s f).1 = false
            ∧ (WirelessBusInterface.disconnect s f).2 = [])
      ∧ (∀ n, parseUsize s = some n →
          isOkE (WirelessBusInterface.disconnect s f).1 = isOkE (f n)))
    ∧ ((WirelessBusInterface.select_network s g).2.length ≤ 1
      ∧ (parseUsize s = none →
          isOkE (WirelessBusInterface.select_network s g).1 = false
            ∧ (WirelessBusInterface.select_network s g).2 = [])
      ∧ (∀ n, parseUsize s = some n →
          isOkE (WirelessBusInterface.select_network s g).1 = isOkE (g n)))
    ∧ ((WirelessBusInterface.info rinf).2 ≤ 1
      ∧ isOkE (WirelessBusInterface.info rinf).1 = isOkE rinf)
    ∧ ((WirelessBusInterface.scan rs).2 ≤ 1
      ∧ isOkE (WirelessBusInterface.scan rs).1 = isOkE rs)
    ∧ ((WirelessBusInterface.known_networks rk).2 ≤ 1
      ∧ isOkE (WirelessBusInterface.known_networks rk).1 = isOkE rk)
    ∧ ((WirelessBusInterface.enable re).2 ≤ 1
      ∧ isOkE (WirelessBusInterface.enable re).1 = isOkE re)
    ∧ ((WirelessBusInterface.disable rd).2 ≤ 1
      ∧ isOkE (WirelessBusInterface.disable rd).1 = isOkE rd) := by
  refine ⟨⟨le_refl 1, rfl⟩, ?_, ⟨?_, ?_, ?_⟩, ⟨?_, ?_, ?_⟩, ?_, ?_, ?_, ?_, ?_⟩
  · cases rc <;> simp [WirelessBusInterface.connect, isOkE]
  · cases hp : parseUsize s with
    | none => simp [WirelessBusInterface.disconnect, hp]
    | some n => cases hf : f n <;> simp [WirelessBusInterface.disconnect, hp, hf]
  · intro hp
    simp [WirelessBusInterface.disconnect, hp, isOkE]
  · intro n hp
    cases hf : f n <;> simp [WirelessBusInterface.disconnect, hp, hf, isOkE]
  · cases hp : parseUsize s with
    | none => simp [WirelessBusInterface.select_network, hp]
    | some n => cases hg : g n <;> simp [WirelessBusInterface.select_network, hp, hg]
  · intro hp
    simp [WirelessBusInterface.select_network, hp, isOkE]
  · intro n hp
    cases hg : g n <;> simp [WirelessBusInterface.select_network, hp, hg, isOkE]
  · cases rinf <;> simp [WirelessBusInterface.info, isOkE]
  · cases rs <;> simp [WirelessBusInterface.scan, isOkE]
  · cases rk <;> simp [WirelessBusInterface.known_networks, isOkE]
  · cases re <;> simp [WirelessBusInterface.enable, isOkE]
  · cases rd <;> simp [WirelessBusInterface.disable, isOkE]

/-- Witness for C8: a parsing id performs its single call with matching
success on a concrete invocation. -/
theorem c8_handlers_one_shot_witness :
    isOkE (WirelessBusInterface.disconnect "5" (fun _ => Except.ok ())).1
      = isOkE (Except.ok () : Except CtlError Unit) := by
  exact (c8_handlers_one_shot true (Except.ok ()) (Except.ok ()) (Except.ok ())
    (Except.error CtlError.failed) (Except.ok []) (Except.ok []) "5"
    (fun _ => Except.ok ()) (fun _ => Except.ok ())).2.2.1.2.2 5 (by decide)

/-- C9: when the status query reports enabled and the info query succeeds,
the greeter parses the signal string with unwrap, so every info response
whose signal is not a valid decimal i32 makes get_wireless_status panic
rather than return an Err. -/
theorem c9_greeter_unwrap_panics (inf : WirelessInfoResponse)
    (h : parseI32 inf.signal = none) :
    get_wireless_status (Except.ok true) (Except.ok inf) = (GreeterRun.panicked, true) := by
  simp [get_wireless_status, h]

/-- Witness for C9 at the signal string "abc". -/
theorem c9_greeter_unwrap_panics_witness :
    get_wireless_status (Except.ok true)
        (Except.ok { mac := "", frequency := "", signal := "abc", flags := "", name := "" })
      = (GreeterRun.panicked, true) :=
  c9_greeter_unwrap_panics
    { mac := "", frequency := "", signal := "abc", flags := "", name := "" } (by decide)

/-- C10: when the triple differs and the signal-context creation or emission
fails, the loop body propagates that very error, the run stops on that cycle
with no event from it, and the stored previous triple is exactly the state
from before the failing cycle. -/
theorem c10_emit_failure_terminates (st : PrevState) (c : PollCycle)
    (rest : List PollCycle) (e : ZbusError)
    (hfail : c.emit_result = Except.error e)
    (hdiff : st.previous_is_enabled ≠ some (computeTriple c).is_enabled
        ∨ st.previous_is_connected ≠ some (computeTriple c).is_connected
        ∨ st.previous_signal_strength ≠ some (computeTriple c).signal_strength) :
    sendNotificationStep st c = Except.error e
    ∧ sendNotificationStream st (c :: rest)
        = { events := [], state := st, errored := true } := by
  have hstep : sendNotificationStep st c = Except.error e := by
    simp only [sendNotificationStep]
    rw [if_pos hdiff, hfail]
  exact ⟨hstep, sendNotificationStream_cons_err st c e rest hstep⟩

/-- Witness for C10 at the initial state and a failing emission cycle. -/
theorem c10_emit_failure_terminates_witness :
    sendNotificationStep initPrev cycleFail = Except.error (ZbusError.failed ("no bus"))
    ∧ sendNotificationStream initPrev (cycleFail :: [cycleA])
        = { events := [], state := initPrev, errored := true } :=
  c10_emit_failure_terminates initPrev cycleFail [cycleA]
    (ZbusError.failed ("no bus")) (by decide) (by decide)
